import Mathlib

/-!
Verification of the waveshare-touch-epaper drivers.

This file gives a shallow embedding, in Lean 4, of the two protocol drivers of
the repository:

* `src/waveshare_touch_epaper/epaper_display.py`, class `EPD2in13` — the
  e-paper display command driver with its refresh-budget state machine; and
* `src/waveshare_touch_epaper/touch_screen.py`, class `GT1151` — the touch
  controller's register protocol (command checksums, firmware-request
  handling, coordinate decoding, mode transitions, and the blocking
  `input()` consumer).

Hardware effects (SPI/I2C transfers, GPIO edges) are modelled as explicit
traces of wire events; driver state that the Python code keeps in instance
attributes becomes explicit state records; Python exceptions become explicit
error values of `Except`.  Machine bytes are `Nat`/`Int` with explicit
masking where the code masks.
-/

/- ======================================================================
   Display driver: epaper_display.py, class EPD2in13
   ====================================================================== -/

/-- Events observed on the display's SPI bus / control lines.
`cmd b` is one byte written with the DC line low (`_send_command`); the byte
is the result of the `_COMMAND.get(key)` dictionary lookup, hence an
`Option Nat` (`none` models Python's `None` for a missing key).
`data b` is one byte written with DC high (`_send_data`); `dataArray bs`
is `_send_data_array`; `hwReset` is the reset pulse of `_hw_reset`;
`waitBusy` marks the blocking `_wait_busy_low` call on the BUSY line. -/
inductive SpiEv where
  | cmd (b : Option Nat)
  | data (b : Nat)
  | dataArray (bs : List Nat)
  | hwReset
  | waitBusy
  deriving Repr, DecidableEq

/-- Panel width in pixels (`EPD2in13.WIDTH = 122`). -/
def EPD2in13.WIDTH : Nat := 122

/-- Panel height in pixels (`EPD2in13.HEIGHT = 250`). -/
def EPD2in13.HEIGHT : Nat := 250

/-- Source constant `_MAX_PARTIAL_REFRESH = 50`: the refresh budget granted
by a full update. -/
def EPD2in13.MAX_REFRESH : Int := 50

/-- The `_COMMAND` dictionary of `EPD2in13`: symbolic command name to opcode
byte.  Python's `dict.get` returns `None` on a missing key, hence
`Option Nat`. -/
def EPD2in13.COMMAND : String → Option Nat
  | "reset" => some 0x12
  | "driver_output_control" => some 0x01
  | "data_entry_mode_setting" => some 0x11
  | "set_ram_x" => some 0x44
  | "set_ram_y" => some 0x45
  | "border_waveform_control" => some 0x3c
  | "temperature_sensor_control" => some 0x18
  | "deep_sleep_mode" => some 0x10
  | "display_update_control" => some 0x21
  | "set_ram_x_adress_counter" => some 0x4e
  | "set_ram_y_adress_counter" => some 0x4f
  | "write_ram_bw" => some 0x24
  | "write_ram_red" => some 0x26
  | _ => none

/-- `_send_command(cmd_key)`: look the key up in `_COMMAND` and write the
result with DC low. -/
def EPD2in13.send_command (cmd_key : String) : List SpiEv :=
  [.cmd (EPD2in13.COMMAND cmd_key)]

/-- `_send_data(data)`: one data byte with DC high. -/
def EPD2in13.send_data (data : Nat) : List SpiEv :=
  [.data data]

/-- `_send_data_array(data_array)`. -/
def EPD2in13.send_data_array (data_array : List Nat) : List SpiEv :=
  [.dataArray data_array]

/-- `_split_low_hi_bytes(large_byte)`: `(large_byte & 0xff, large_byte >> 8)`. -/
def EPD2in13.split_low_hi_bytes (large_byte : Nat) : Nat × Nat :=
  (large_byte &&& 0xff, large_byte >>> 8)

/-- `_set_gate_driver_output`. -/
def EPD2in13.set_gate_driver_output : List SpiEv :=
  EPD2in13.send_command "driver_output_control" ++
  EPD2in13.send_data 0xf9 ++ EPD2in13.send_data 0x00 ++ EPD2in13.send_data 0x00

/-- `_set_display_RAM_size(coords)`: data-entry mode, then the RAM-X window
(`x >> 3`) and the RAM-Y window (low/high byte pairs).  `coords = None`
selects the full screen window. -/
def EPD2in13.set_display_RAM_size (coords : Option (Nat × Nat × Nat × Nat)) :
    List SpiEv :=
  let w := match coords with
    | none => (0, EPD2in13.WIDTH - 1, 0, EPD2in13.HEIGHT - 1)
    | some c => c
  let x_start := w.1
  let x_end := w.2.1
  let y_start := w.2.2.1
  let y_end := w.2.2.2
  let ys := EPD2in13.split_low_hi_bytes y_start
  let ye := EPD2in13.split_low_hi_bytes y_end
  EPD2in13.send_command "data_entry_mode_setting" ++ EPD2in13.send_data 0b011 ++
  EPD2in13.send_command "set_ram_x" ++
  EPD2in13.send_data (x_start >>> 3) ++ EPD2in13.send_data (x_end >>> 3) ++
  EPD2in13.send_command "set_ram_y" ++
  EPD2in13.send_data ys.1 ++ EPD2in13.send_data ys.2 ++
  EPD2in13.send_data ye.1 ++ EPD2in13.send_data ye.2

/-- `_set_panel_border`: the packed border-waveform bitfield. -/
def EPD2in13.set_panel_border : List SpiEv :=
  let vbd_opt := 0b00 <<< 6
  let vbd_level := 0b00 <<< 4
  let gs_control := 0b1 <<< 2
  let gs_setting := 0b01
  EPD2in13.send_command "border_waveform_control" ++
  EPD2in13.send_data (gs_control + gs_setting + vbd_level + vbd_opt)

/-- `_set_display_source_mode`. -/
def EPD2in13.set_display_source_mode : List SpiEv :=
  EPD2in13.send_command "display_update_control" ++ EPD2in13.send_data 0x0 ++
  EPD2in13.send_data (0b1 <<< 7)

/-- `_send_initialization_code(coords)`. -/
def EPD2in13.send_initialization_code
    (coords : Option (Nat × Nat × Nat × Nat)) : List SpiEv :=
  EPD2in13.set_gate_driver_output ++
  EPD2in13.set_display_RAM_size coords ++
  EPD2in13.set_panel_border ++
  EPD2in13.set_display_source_mode

/-- `_sense_temperature`: the source looks up the key
`'temperature_sense_control'`, which is absent from `_COMMAND` (the table
spells it `'temperature_sensor_control'`), so the command byte passed to the
bus is Python's `None`, i.e. `Option.none` here. -/
def EPD2in13.sense_temperature : List SpiEv :=
  EPD2in13.send_command "temperature_sense_control" ++ EPD2in13.send_data 0x80

/-- `_load_waveform_lut`: `_sense_temperature` then the blocking
`_wait_busy_low` on the BUSY line (marked by the `waitBusy` event). -/
def EPD2in13.load_waveform_lut : List SpiEv :=
  EPD2in13.sense_temperature ++ [.waitBusy]

/-- `_write_img_data_in_ram(x_start, y_start, img)`. -/
def EPD2in13.write_img_data_in_ram (x_start y_start : Nat) (img : List Nat) :
    List SpiEv :=
  let yb := EPD2in13.split_low_hi_bytes y_start
  EPD2in13.send_command "set_ram_x_adress_counter" ++
  EPD2in13.send_data (x_start >>> 3) ++
  EPD2in13.send_command "set_ram_y_adress_counter" ++
  EPD2in13.send_data yb.1 ++ EPD2in13.send_data yb.2 ++
  EPD2in13.send_command "write_ram_bw" ++
  EPD2in13.send_data_array img

/-- `_write_image_and_drive_display_panel(x_start, y_start, img)`.  In the
source the `display` call sites elide the `img` argument (a slip in the
snapshot: the parameter has no default); the image being written can only be
the one passed to `display`, which is what is modelled. -/
def EPD2in13.write_image_and_drive_display_panel
    (x_start y_start : Nat) (img : List Nat) : List SpiEv :=
  EPD2in13.write_img_data_in_ram x_start y_start img

/-- A PIL image as `display` receives it: its pixel dimensions and its
1-bit-per-pixel payload. -/
structure EpaperImg where
  width : Nat
  height : Nat
  pixels : List Nat
  deriving Repr, DecidableEq

/-- The mutable driver state of `EPD2in13`: the `_remaining_partial_refresh`
attribute, `None` after `__init__` and an integer once a full update ran. -/
structure EpdState where
  remaining_refresh : Option Int
  deriving Repr, DecidableEq

/-- State after `EPD2in13.__init__`: `_remaining_partial_refresh = None`. -/
def EPD2in13.initState : EpdState := { remaining_refresh := none }

/-- Python exceptions the display driver can raise: `TypeError` (e.g.
`None -= 1`) and `EpaperException(msg)`. -/
inductive PyError where
  | typeError
  | epaperException (msg : String)
  deriving Repr, DecidableEq

/-- The message of the budget-exhausted `EpaperException` in `display`. -/
def tooManyMsg : String := "too many partial refresh. need a full refresh"

/-- `EPD2in13.display(img, full)` (the `wait` parameter is unused by the
source body).  Returns the new driver state and the SPI trace, or the raised
exception.  Mirrors the source control flow: the `full` branch runs the
initialization code, the LUT load and the RAM write and then sets the budget
to `_MAX_PARTIAL_REFRESH`; the non-`full` branch first tests
`_remaining_partial_refresh == 0` (false for `None`), then performs the
abbreviated initialization and the RAM write on the fixed window
`(0, 121, 0, 249)`, then executes `_remaining_partial_refresh -= 1`, which
is a `TypeError` when the attribute is still `None`. -/
def EPD2in13.display (s : EpdState) (img : EpaperImg) (full : Bool) :
    Except PyError (EpdState × List SpiEv) :=
  if full then
    .ok ({ remaining_refresh := some EPD2in13.MAX_REFRESH },
      EPD2in13.send_initialization_code none ++
      EPD2in13.load_waveform_lut ++
      EPD2in13.write_image_and_drive_display_panel 0 0 img.pixels)
  else
    if s.remaining_refresh = some 0 then
      .error (.epaperException tooManyMsg)
    else
      let evs := EPD2in13.send_initialization_code (some (0, 121, 0, 249)) ++
        EPD2in13.write_image_and_drive_display_panel 0 0 img.pixels
      match s.remaining_refresh with
      | some b => .ok ({ remaining_refresh := some (b - 1) }, evs)
      | none => .error .typeError

/-- `EPD2in13.open()`: power on, SPI configuration, hardware reset pulse and
software reset command.  It does not touch `_remaining_partial_refresh`. -/
def EPD2in13.openPort (s : EpdState) : EpdState × List SpiEv :=
  (s, [.hwReset] ++ EPD2in13.send_command "reset")

/-- Driver states reachable through `__init__`, `open()` and successful
`display` calls. -/
inductive EPD2in13.Reachable : EpdState → Prop where
  | start : EPD2in13.Reachable EPD2in13.initState
  | openStep : ∀ s, EPD2in13.Reachable s →
      EPD2in13.Reachable (EPD2in13.openPort s).1
  | fullStep : ∀ s img s' evs, EPD2in13.Reachable s →
      EPD2in13.display s img true = .ok (s', evs) → EPD2in13.Reachable s'
  | partStep : ∀ s img s' evs, EPD2in13.Reachable s →
      EPD2in13.display s img false = .ok (s', evs) → EPD2in13.Reachable s'

/-- Concrete white full-screen image, for witnesses. -/
def imgFull : EpaperImg :=
  { width := 122, height := 250, pixels := List.replicate 10 0xff }

/-- Driver state with a fresh budget of 50. -/
def st50 : EpdState := { remaining_refresh := some 50 }

/-- Driver state with the budget exhausted. -/
def stZero : EpdState := { remaining_refresh := some 0 }

/-- C1: the refresh budget is 50 immediately after a successful full
`display`; each successful `display(img, full=False)` requires a nonzero
budget and decrements it by exactly one; on every reachable state the budget
is `None` or an integer in `[0, 50]` (never negative); and a
`display(img, full=False)` on a zero budget raises the budget-exhausted
`EpaperException` — returning the error without producing any new state, so
the budget stays 0 and nothing else changes. -/
theorem display_refresh_budget_machine :
    (∀ s img, ∃ evs, EPD2in13.display s img true =
        .ok ({ remaining_refresh := some 50 }, evs)) ∧
    (∀ s img s' evs b, s.remaining_refresh = some b →
        EPD2in13.display s img false = .ok (s', evs) →
        b ≠ 0 ∧ s'.remaining_refresh = some (b - 1)) ∧
    (∀ s, EPD2in13.Reachable s →
        s.remaining_refresh = none ∨
        ∃ b, s.remaining_refresh = some b ∧ 0 ≤ b ∧ b ≤ 50) ∧
    (∀ s img, s.remaining_refresh = some 0 →
        EPD2in13.display s img false = .error (.epaperException tooManyMsg)) := by
  refine ⟨fun s img => ⟨_, rfl⟩, ?_, ?_, ?_⟩
  · intro s img s' evs b hb hok
    simp only [EPD2in13.display, if_neg (Bool.false_ne_true), hb] at hok
    by_cases h0 : b = 0
    · subst h0; simp at hok
    · simp [h0] at hok
      exact ⟨h0, by simp [← hok.1]⟩
  · intro s hs
    induction hs with
    | start => exact Or.inl rfl
    | openStep s _ ih => exact ih
    | fullStep s img s' evs _ hok _ =>
      refine Or.inr ⟨50, ?_, by norm_num, by norm_num⟩
      simp only [EPD2in13.display, if_pos, Except.ok.injEq, Prod.mk.injEq] at hok
      rw [← hok.1]
      rfl
    | partStep s img s' evs _ hok ih =>
      rcases ih with hnone | ⟨b, hb, hb0, hb50⟩
      · simp [EPD2in13.display, hnone] at hok
      · simp only [EPD2in13.display, if_neg (Bool.false_ne_true), hb] at hok
        by_cases h0 : b = 0
        · subst h0; simp at hok
        · simp [h0] at hok
          refine Or.inr ⟨b - 1, by simp [← hok.1], by omega, by omega⟩
  · intro s img h0
    simp [EPD2in13.display, h0]

/-- Witness for C1 at concrete inputs: a successful partial refresh from
budget 50 leaves budget 49; the state with budget 50 satisfies the range
invariant; and a partial refresh at budget 0 raises the budget-exhausted
exception. -/
theorem display_refresh_budget_machine_witness :
    (∃ s' evs, EPD2in13.display st50 imgFull false = .ok (s', evs) ∧
      s'.remaining_refresh = some 49) ∧
    (st50.remaining_refresh = none ∨
      ∃ b, st50.remaining_refresh = some b ∧ 0 ≤ b ∧ b ≤ 50) ∧
    EPD2in13.display stZero imgFull false =
      .error (.epaperException tooManyMsg) := by
  have hok : EPD2in13.display st50 imgFull false =
      .ok ({ remaining_refresh := some 49 },
        EPD2in13.send_initialization_code (some (0, 121, 0, 249)) ++
        EPD2in13.write_image_and_drive_display_panel 0 0 imgFull.pixels) := by
    rfl
  refine ⟨⟨_, _, hok, ?_⟩, ?_, ?_⟩
  · have h := (display_refresh_budget_machine.2.1 st50 imgFull _ _ 50 rfl hok).2
    exact h.trans (by norm_num)
  · have hreach : EPD2in13.Reachable st50 :=
      EPD2in13.Reachable.fullStep EPD2in13.initState imgFull st50 _
        EPD2in13.Reachable.start rfl
    exact display_refresh_budget_machine.2.2.1 st50 hreach
  · exact display_refresh_budget_machine.2.2.2 stZero imgFull rfl

/-- An image whose dimensions (10 by 10) differ from the panel geometry. -/
def imgWrong : EpaperImg := { width := 10, height := 10, pixels := [0x00] }

/-- C4 (divergence witness): `EPD2in13.display` performs no dimension check
at all — called on a 10 by 10 image it raises nothing and performs bus I/O
(the emitted SPI trace is nonempty), even though the dimensions differ from
`WIDTH = 122`, `HEIGHT = 250`. -/
theorem display_accepts_wrong_dimensions :
    imgWrong.width ≠ EPD2in13.WIDTH ∧ imgWrong.height ≠ EPD2in13.HEIGHT ∧
    ∃ s' evs, EPD2in13.display EPD2in13.initState imgWrong true =
      .ok (s', evs) ∧ evs ≠ [] := by
  refine ⟨by decide, by decide, _, _, rfl, by decide⟩

/-- C10: on the fresh state after `__init__` (and unchanged by `open()`),
`_remaining_partial_refresh` is `None`; a `display(img, full=False)` in this
state is not the budget-exhausted `EpaperException` (the `== 0` guard is
false for `None`) but the unguarded `TypeError` from `None -= 1`. -/
theorem fresh_handle_unguarded_decrement :
    EPD2in13.initState.remaining_refresh = none ∧
    (EPD2in13.openPort EPD2in13.initState).1.remaining_refresh = none ∧
    ∀ img : EpaperImg,
      EPD2in13.display EPD2in13.initState img false = .error .typeError ∧
      EPD2in13.display (EPD2in13.openPort EPD2in13.initState).1 img false =
        .error .typeError ∧
      EPD2in13.display EPD2in13.initState img false ≠
        .error (.epaperException tooManyMsg) := by
  refine ⟨rfl, rfl, fun img => ⟨rfl, rfl, ?_⟩⟩
  have h : EPD2in13.display EPD2in13.initState img false = .error .typeError := rfl
  rw [h]
  simp

/-- Outcome of one bounded observation of the blocking busy wait:
either the BUSY line was seen inactive at tick `t`, or the wait is still
blocked after all observed ticks.  There is no timeout constructor because
`_wait_busy_low` calls `gpiozero`'s `wait_for_inactive()` with no timeout
argument: the code has no expiry branch and raises nothing. -/
inductive BusyWaitResult where
  | done (t : Nat)
  | stillWaiting
  deriving Repr, DecidableEq

/-- `_wait_busy_low`, observed for `steps` ticks of the BUSY line `busy`
(`true` = asserted/busy): it completes at the first tick where the line is
inactive, and otherwise is still blocked — with no bound and no exception. -/
def EPD2in13.wait_busy_low (busy : Nat → Bool) (steps : Nat) : BusyWaitResult :=
  match (List.range steps).find? (fun t => !(busy t)) with
  | some t => .done t
  | none => .stillWaiting

/-- C6 (divergence witness): the LUT load blocks on the BUSY line via
`_wait_busy_low`, and on a line that never deasserts that wait is still
blocked after any number of ticks — it never completes, never times out and
never raises. -/
theorem lut_wait_never_times_out :
    SpiEv.waitBusy ∈ EPD2in13.load_waveform_lut ∧
    ∀ steps, EPD2in13.wait_busy_low (fun _ => true) steps = .stillWaiting := by
  constructor
  · decide
  · intro steps
    have h : List.find? (fun _ => false) (List.range steps) = none :=
      List.find?_eq_none.mpr (fun x _ => by simp)
    simp only [EPD2in13.wait_busy_low, Bool.not_true]
    rw [h]

/- ======================================================================
   Touch controller: touch_screen.py, class GT1151
   ====================================================================== -/

/-- Events on the touch controller's I2C bus and control lines.
`writeWord c w` is one `write_word_data(address, c, w)` transfer
(`_i2c_writebyte`); `writeAddr c d` is the `write_byte_data` transfer of
`_i2c_write` that latches a register address before a read; `readByte` is
one `read_byte` of `_i2c_readbyte`; `resetPulse` is the TRST pulse of
`_reset`. -/
inductive TouchEv where
  | writeWord (cmdByte : Int) (word : Int)
  | writeAddr (cmdByte : Int) (dataByte : Int)
  | readByte
  | resetPulse
  deriving Repr, DecidableEq

/-- The `_REGISTER` dictionary of `GT1151` (all keys used by the source are
present; the default is never hit). -/
def GT1151.REGISTER : String → Int
  | "command" => 0x8040
  | "command_data" => 0x8041
  | "command_checksum" => 0x8042
  | "fw_request" => 0x8044
  | "coordinates_info" => 0x814E
  | "coordinates_values" => 0x814F
  | "product_id" => 0x8140
  | "gesture_type" => 0x814C
  | _ => 0

/-- Python's `v & 0xff` on an (arbitrary, possibly negative) int: the
mathematical residue mod 256, which is what `Int.emod` by a positive
modulus computes. -/
def mask8 (v : Int) : Int := v % 256

/-- `_i2c_writebyte(reg, value)`: one
`write_word_data(addr, (reg >> 8) & 0xff, (reg & 0xff) | ((value & 0xff) << 8))`
transfer.  For `reg ≥ 0`, `reg >> 8` is `reg / 256`; the two operands of the
`|` occupy disjoint bit ranges (`reg & 0xff < 256` and the second is a
multiple of 256), so the `|` equals `+`. -/
def GT1151.i2c_writebyte (reg value : Int) : TouchEv :=
  .writeWord (mask8 (reg / 256)) (mask8 reg + 256 * mask8 value)

/-- `_i2c_write(reg)`: `write_byte_data(addr, (reg >> 8) & 0xff, reg & 0xff)`. -/
def GT1151.i2c_write (reg : Int) : TouchEv :=
  .writeAddr (mask8 (reg / 256)) (mask8 reg)

/-- Bus events of `_i2c_readbyte(reg, length)`: latch the address, then
`length` single-byte reads. -/
def GT1151.i2c_readbyte_evs (reg : Int) (length : Nat) : List TouchEv :=
  GT1151.i2c_write reg :: List.replicate length .readByte

/-- `_send_command(command, data)`: `check_sum = 0x100 - command - data`,
then three `_i2c_writebyte` transfers to the `command`, `command_data` and
`command_checksum` registers. -/
def GT1151.send_command (command data : Int) : List TouchEv :=
  let check_sum := 0x100 - command - data
  [ GT1151.i2c_writebyte (GT1151.REGISTER "command") command,
    GT1151.i2c_writebyte (GT1151.REGISTER "command_data") data,
    GT1151.i2c_writebyte (GT1151.REGISTER "command_checksum") check_sum ]

/-- The value byte actually transmitted inside a `writeWord` transfer: the
high byte of the 16-bit word (`word >> 8`). -/
def sentValueByte : TouchEv → Int
  | .writeWord _ word => word / 256
  | _ => 0

/-- The checksum byte that `_send_command(command, data)` puts on the wire:
the value byte of the third transfer of the sequence. -/
def sentCheckByte (command data : Int) : Int :=
  sentValueByte ((GT1151.send_command command data).getD 2 .readByte)

/-- C5: for all byte values `command` and `data`, the checksum byte actually
transmitted by `_send_command` (after the `& 0xff` masking of
`_i2c_writebyte`) is a byte and satisfies
`(command + data + checksum) mod 256 == 0`. -/
theorem send_command_checksum_law :
    ∀ command data : Int, 0 ≤ command → command < 256 → 0 ≤ data → data < 256 →
      0 ≤ sentCheckByte command data ∧ sentCheckByte command data < 256 ∧
      (command + data + sentCheckByte command data) % 256 = 0 := by
  intro c d hc0 hc hd0 hd
  simp only [sentCheckByte, sentValueByte, GT1151.send_command,
    GT1151.i2c_writebyte, GT1151.REGISTER, mask8, List.getD, List.getElem?_cons,
    List.get?_eq_getElem?]
  norm_num
  omega

/-- Witness for C5 at `command = 0x05` (the sleep command), `data = 0x00`:
the transmitted checksum byte is 0xFB = 251 and the three bytes sum to 0
mod 256. -/
theorem send_command_checksum_law_witness :
    sentCheckByte 0x05 0x00 = 251 ∧
    (0x05 + 0x00 + sentCheckByte 0x05 0x00) % 256 = 0 :=
  ⟨by decide,
   (send_command_checksum_law 0x05 0x00 (by norm_num) (by norm_num)
     (by norm_num) (by norm_num)).2.2⟩

/-- The controller modes of `GT1151` (`self._mode` strings). -/
inductive GtMode where
  | normal
  | sleepMode
  | gesture
  deriving Repr, DecidableEq

/-- The mutable state of a `GT1151` instance: the ten-slot coordinate arrays
`_x`, `_y`, `_s`, the `_mode` attribute (`None` after `__init__`), the
lifecycle flags `_started` / `_stopped`, and whether the `_touch_detected`
`Event` is set. -/
structure GtState where
  x : List Nat
  y : List Nat
  s : List Nat
  mode : Option GtMode
  started : Bool
  stopped : Bool
  touch_detected : Bool
  deriving Repr, DecidableEq

/-- State after `GT1151.__init__`. -/
def GT1151.initState : GtState :=
  { x := List.replicate 10 0
    y := List.replicate 10 0
    s := List.replicate 10 0
    mode := none
    started := false
    stopped := false
    touch_detected := false }

/-- `_enter_normal_mode`: TRST reset pulse, arm the INT callback for
coordinate reading, set `_mode = 'normal'`. -/
def GT1151.enter_normal_mode (st : GtState) : GtState × List TouchEv :=
  ({ st with mode := some .normal }, [.resetPulse])

/-- `_get_bits(value, first_bit, last_bit)`: extract the bit range;
`last_bit = none` models the Python default `last_bit=None`, which selects
the single bit `first_bit`. -/
def GT1151.get_bits (value first_bit : Nat) (last_bit : Option Nat) : Nat :=
  let lb := last_bit.getD first_bit
  let shift := first_bit
  let nbits := lb - first_bit + 1
  let mask := 2 ^ nbits - 1
  (value >>> shift) &&& mask

/-- `_add_lo_hi_bytes(low_byte, high_byte, nbits)`:
`(high_byte << nbits) + low_byte` (the source default is `nbits=8`). -/
def GT1151.add_lo_hi_bytes (low_byte high_byte nbits : Nat) : Nat :=
  (high_byte <<< nbits) + low_byte

/-- `_answer_to_FW_request`: read the three bytes of the `fw_request`
register (`fwBuf`, supplied by the bus); on request code `0x01` do nothing,
on `0x03` re-enter normal mode, on any other code do nothing; in every case
finish by acknowledging the register with `_i2c_writebyte(fw_request, 0)`. -/
def GT1151.answer_to_FW_request (st : GtState) (fwBuf : List Nat) :
    GtState × List TouchEv :=
  let readEvs := GT1151.i2c_readbyte_evs (GT1151.REGISTER "fw_request") 3
  let request := fwBuf.getD 0 0
  let branch : GtState × List TouchEv :=
    if request = 0x01 then (st, [])
    else if request = 0x03 then GT1151.enter_normal_mode st
    else (st, [])
  (branch.1,
   readEvs ++ branch.2 ++ [GT1151.i2c_writebyte (GT1151.REGISTER "fw_request") 0x0])

/-- `_read_coordinates(n_touch_points)`: read `8 * n` bytes from
`coordinates_values` (`buf`, supplied by the bus) and assign, for each
`i < n`, `x[i]`, `y[i]`, `s[i]` from the record bytes at offsets
`1+8i, 2+8i`, `3+8i, 4+8i` and `5+8i, 6+8i`; slots `i ≥ n` keep their old
value.  (Python would raise `IndexError` on a short `buf`; out-of-range
offsets are given the default 0 here, never hit when `buf` has `8n`
bytes.) -/
def GT1151.read_coordinates (st : GtState) (n : Nat) (buf : List Nat) :
    GtState × List TouchEv :=
  let readEvs := GT1151.i2c_readbyte_evs (GT1151.REGISTER "coordinates_values") (n * 8)
  ({ st with
      x := (List.range 10).map (fun i => if i < n then
        GT1151.add_lo_hi_bytes (buf.getD (1 + 8 * i) 0) (buf.getD (2 + 8 * i) 0) 8
        else st.x.getD i 0)
      y := (List.range 10).map (fun i => if i < n then
        GT1151.add_lo_hi_bytes (buf.getD (3 + 8 * i) 0) (buf.getD (4 + 8 * i) 0) 8
        else st.y.getD i 0)
      s := (List.range 10).map (fun i => if i < n then
        GT1151.add_lo_hi_bytes (buf.getD (5 + 8 * i) 0) (buf.getD (6 + 8 * i) 0) 8
        else st.s.getD i 0) },
   readEvs)

/-- `_process_coordinate_reading(triggered=True)` — the INT-callback path,
in which the `while` loop body runs exactly once: read the
`coordinates_info` byte (`infoByte`, supplied by the bus); bit 7 is the
buffer-ready flag and bits 0–3 the touch count.  If the ready bit is 0,
service a firmware request (`fwBuf` are the bytes the bus returns for it);
otherwise, when the count is positive, read and assign the coordinates from
`coordBuf` and set the `_touch_detected` event, and in either case
acknowledge `coordinates_info` by writing 0. -/
def GT1151.process_coordinate_reading_triggered (st : GtState)
    (infoByte : Nat) (fwBuf coordBuf : List Nat) : GtState × List TouchEv :=
  let infoEvs := GT1151.i2c_readbyte_evs (GT1151.REGISTER "coordinates_info") 1
  let buffer_status := GT1151.get_bits infoByte 7 none
  let n_touch_points := GT1151.get_bits infoByte 0 (some 3)
  if buffer_status = 0 then
    let r := GT1151.answer_to_FW_request st fwBuf
    (r.1, infoEvs ++ r.2)
  else
    if n_touch_points > 0 then
      let r := GT1151.read_coordinates st n_touch_points coordBuf
      ({ r.1 with touch_detected := true },
       infoEvs ++ r.2 ++ [GT1151.i2c_writebyte (GT1151.REGISTER "coordinates_info") 0x0])
    else
      (st, infoEvs ++ [GT1151.i2c_writebyte (GT1151.REGISTER "coordinates_info") 0x0])

/-- C8: on an interrupt-triggered `coordinates_info` read whose ready bit
(bit 7) is 0, the driver services the firmware request; request code `0x03`
re-enters normal mode (and raises nothing — the handler is total), request
`0x01` and every other code leave the state unchanged; and in every case the
final bus transfer acknowledges `fw_request` by writing 0 back. -/
theorem fw_request_protocol :
    ∀ st fwBuf,
      (GT1151.answer_to_FW_request st fwBuf).2.getLast? =
        some (GT1151.i2c_writebyte (GT1151.REGISTER "fw_request") 0x0) ∧
      (fwBuf.getD 0 0 = 0x03 →
        (GT1151.answer_to_FW_request st fwBuf).1 =
          (GT1151.enter_normal_mode st).1 ∧
        (GT1151.answer_to_FW_request st fwBuf).1.mode = some GtMode.normal) ∧
      (fwBuf.getD 0 0 ≠ 0x03 → (GT1151.answer_to_FW_request st fwBuf).1 = st) ∧
      (∀ infoByte coordBuf, GT1151.get_bits infoByte 7 none = 0 →
        (GT1151.process_coordinate_reading_triggered st infoByte fwBuf coordBuf).1 =
          (GT1151.answer_to_FW_request st fwBuf).1) := by
  intro st fwBuf
  refine ⟨?_, ?_, ?_, ?_⟩
  · simp [GT1151.answer_to_FW_request]
  · intro h3
    have h1 : ¬ fwBuf.getD 0 0 = 0x01 := by omega
    simp only [GT1151.answer_to_FW_request, GT1151.enter_normal_mode]
    rw [if_neg h1, if_pos h3]
    exact ⟨rfl, rfl⟩
  · intro hne
    by_cases h1 : fwBuf.getD 0 0 = 0x01
    · simp only [GT1151.answer_to_FW_request]
      rw [if_pos h1]
    · simp only [GT1151.answer_to_FW_request]
      rw [if_neg h1, if_neg hne]
  · intro infoByte coordBuf hrdy
    simp [GT1151.process_coordinate_reading_triggered, hrdy]

/-- Witness for C8 at concrete inputs: with `fwBuf = [0x03, 0, 0]` the
handler from the fresh state lands in normal mode and acknowledges with 0;
with `fwBuf = [0x01, 0, 0]` the state is unchanged; and the triggered
process path with ready bit 0 (`infoByte = 0`) agrees with the handler. -/
theorem fw_request_protocol_witness :
    (GT1151.answer_to_FW_request GT1151.initState [0x03, 0, 0]).1.mode =
      some GtMode.normal ∧
    (GT1151.answer_to_FW_request GT1151.initState [0x01, 0, 0]).1 =
      GT1151.initState ∧
    (GT1151.answer_to_FW_request GT1151.initState [0x03, 0, 0]).2.getLast? =
      some (GT1151.i2c_writebyte (GT1151.REGISTER "fw_request") 0x0) ∧
    (GT1151.process_coordinate_reading_triggered GT1151.initState 0
        [0x03, 0, 0] []).1 =
      (GT1151.answer_to_FW_request GT1151.initState [0x03, 0, 0]).1 :=
  ⟨((fw_request_protocol GT1151.initState [0x03, 0, 0]).2.1 (by decide)).2,
   (fw_request_protocol GT1151.initState [0x01, 0, 0]).2.2.1 (by decide),
   (fw_request_protocol GT1151.initState [0x03, 0, 0]).1,
   (fw_request_protocol GT1151.initState [0x03, 0, 0]).2.2.2 0 [] (by decide)⟩

/-- A byte or-ed with a value shifted past it: for `lo < 256` the two
operands of `lo ||| (hi <<< 8)` occupy disjoint bit ranges, so the or is the
sum. -/
theorem lor_shift8_eq_add (lo hi : Nat) (h : lo < 256) :
    lo ||| (hi <<< 8) = (hi <<< 8) + lo := by
  rw [Nat.shiftLeft_eq, Nat.lor_comm, Nat.mul_comm]
  exact (Nat.mul_add_lt_is_or h hi).symm

/-- The 1-point coordinate payload of Scenario C of the spec, with a free
status byte. -/
def scenarioCBuf (status : Nat) : List Nat :=
  [status, 0x10, 0x00, 0x20, 0x00, 0x05, 0x00, 0x00]

/-- C9: for every reported touch point `i < n`, `_read_coordinates` decodes
the 8-byte record at offset `8 i` as `x = x_lo | (x_hi << 8)`,
`y = y_lo | (y_hi << 8)`, `size = s_lo | (s_hi << 8)` (for byte-valued
low bytes, as the bus delivers); in particular the 1-point payload
`[status, 0x10, 0x00, 0x20, 0x00, 0x05, 0x00, 0x00]` decodes to
`x = 16, y = 32, size = 5`. -/
theorem coordinate_decoding_law :
    (∀ st n buf i, i < n → n ≤ 10 →
      buf.getD (1 + 8 * i) 0 < 256 →
      buf.getD (3 + 8 * i) 0 < 256 →
      buf.getD (5 + 8 * i) 0 < 256 →
      (GT1151.read_coordinates st n buf).1.x.getD i 0 =
        (buf.getD (1 + 8 * i) 0 ||| (buf.getD (2 + 8 * i) 0 <<< 8)) ∧
      (GT1151.read_coordinates st n buf).1.y.getD i 0 =
        (buf.getD (3 + 8 * i) 0 ||| (buf.getD (4 + 8 * i) 0 <<< 8)) ∧
      (GT1151.read_coordinates st n buf).1.s.getD i 0 =
        (buf.getD (5 + 8 * i) 0 ||| (buf.getD (6 + 8 * i) 0 <<< 8))) ∧
    (∀ status,
      (GT1151.read_coordinates GT1151.initState 1 (scenarioCBuf status)).1.x.getD 0 0 = 16 ∧
      (GT1151.read_coordinates GT1151.initState 1 (scenarioCBuf status)).1.y.getD 0 0 = 32 ∧
      (GT1151.read_coordinates GT1151.initState 1 (scenarioCBuf status)).1.s.getD 0 0 = 5) := by
  constructor
  · intro st n buf i hin hn10 hx hy hs
    have hi10 : i < 10 := lt_of_lt_of_le hin hn10
    refine ⟨?_, ?_, ?_⟩
    all_goals
      simp only [GT1151.read_coordinates, GT1151.add_lo_hi_bytes]
      rw [List.getD_eq_getElem?_getD, List.getElem?_map, List.getElem?_range hi10]
      simp only [Option.map_some', Option.getD_some, if_pos hin]
    · rw [lor_shift8_eq_add _ _ hx]
    · rw [lor_shift8_eq_add _ _ hy]
    · rw [lor_shift8_eq_add _ _ hs]
  · intro status
    refine ⟨?_, ?_, ?_⟩
    all_goals
      simp only [GT1151.read_coordinates, GT1151.add_lo_hi_bytes, scenarioCBuf]
      rw [List.getD_eq_getElem?_getD, List.getElem?_map,
        List.getElem?_range (by norm_num : (0 : ℕ) < 10)]
      simp

/-- Witness for C9 at the Scenario C payload with status byte `0x80`:
point 0 of one reported touch decodes to `x = 16`. -/
theorem coordinate_decoding_law_witness :
    (GT1151.read_coordinates GT1151.initState 1 (scenarioCBuf 0x80)).1.x.getD 0 0 =
      ((scenarioCBuf 0x80).getD 1 0 ||| ((scenarioCBuf 0x80).getD 2 0 <<< 8)) ∧
    (GT1151.read_coordinates GT1151.initState 1 (scenarioCBuf 0x80)).1.x.getD 0 0 = 16 :=
  ⟨(coordinate_decoding_law.1 GT1151.initState 1 (scenarioCBuf 0x80) 0
      (by decide) (by decide) (by decide) (by decide) (by decide)).1,
   (coordinate_decoding_law.2 0x80).1⟩

/-- The `TouchEpaperException` raised by `_check_if_started` and
`_check_if_stopped`. -/
inductive TouchErr where
  | touchEpaperException
  deriving Repr, DecidableEq

/-- The wait loop of `GT1151.input` (its final lines): `old` is the
`old_coord = (_x[0], _y[0])` snapshot taken at entry; `obs` is the sequence
of published `(_x[0], _y[0])` values the caller observes at successive
wake-ups of the `_touch_detected` event.  The loop keeps waiting while the
observed pair equals `old` and returns the first differing pair; `none`
means the caller is still blocked in `Event.wait()` after all observed
wake-ups — `input` takes no timeout parameter and `wait()` is called with
no timeout, so there is no expiry outcome. -/
def GT1151.input_wait_loop (old : Nat × Nat) :
    List (Nat × Nat) → Option (Nat × Nat)
  | [] => none
  | c :: rest =>
      if c = old then GT1151.input_wait_loop old rest else some c

/-- `GT1151.input()`: `_check_if_started` and `_check_if_stopped` (each
raising `TouchEpaperException`), then — when `_mode` is not `'normal'` — a
silent `_enter_normal_mode()`, then the snapshot of `(_x[0], _y[0])` and the
wait loop.  The result pairs the state after the mode phase with the loop's
outcome over the observed publications `obs`. -/
def GT1151.input (st : GtState) (obs : List (Nat × Nat)) :
    Except TouchErr (GtState × Option (Nat × Nat)) :=
  if st.started = false then .error .touchEpaperException
  else if st.stopped = true then .error .touchEpaperException
  else
    let st' := if st.mode = some GtMode.normal then st
      else (GT1151.enter_normal_mode st).1
    .ok (st', GT1151.input_wait_loop (st'.x.getD 0 0, st'.y.getD 0 0) obs)

/-- C2: the wait loop returns only a pair different from the entry snapshot;
an observation equal to the snapshot wakes the caller but never produces a
return (it is skipped); and the publication a triggered coordinate read
makes is a function of the bytes read alone — so two consecutive reads
reporting the same `(x, y)` publish the same pair, and the second of them
cannot produce a second `input()` return. -/
theorem input_dedup_law :
    (∀ old obs v, GT1151.input_wait_loop old obs = some v → v ≠ old) ∧
    (∀ old obs, GT1151.input_wait_loop old (old :: obs) =
      GT1151.input_wait_loop old obs) ∧
    (∀ st1 st2 infoByte fwBuf1 fwBuf2 coordBuf,
      GT1151.get_bits infoByte 7 none ≠ 0 →
      GT1151.get_bits infoByte 0 (some 3) > 0 →
      ((GT1151.process_coordinate_reading_triggered st1 infoByte fwBuf1 coordBuf).1.x.getD 0 0,
       (GT1151.process_coordinate_reading_triggered st1 infoByte fwBuf1 coordBuf).1.y.getD 0 0) =
      ((GT1151.process_coordinate_reading_triggered st2 infoByte fwBuf2 coordBuf).1.x.getD 0 0,
       (GT1151.process_coordinate_reading_triggered st2 infoByte fwBuf2 coordBuf).1.y.getD 0 0) ∧
      (GT1151.process_coordinate_reading_triggered st1 infoByte fwBuf1 coordBuf).1.touch_detected
        = true) := by
  refine ⟨?_, ?_, ?_⟩
  · intro old obs v h
    induction obs with
    | nil => simp [GT1151.input_wait_loop] at h
    | cons c rest ih =>
      by_cases hc : c = old
      · rw [GT1151.input_wait_loop, if_pos hc] at h
        exact ih h
      · rw [GT1151.input_wait_loop, if_neg hc] at h
        cases h
        exact hc
  · intro old obs
    rw [GT1151.input_wait_loop, if_pos rfl]
  · intro st1 st2 infoByte fwBuf1 fwBuf2 coordBuf hrdy hn
    have key : ∀ st fwBuf,
        (GT1151.process_coordinate_reading_triggered st infoByte fwBuf coordBuf).1.x.getD 0 0 =
          GT1151.add_lo_hi_bytes (coordBuf.getD 1 0) (coordBuf.getD 2 0) 8 ∧
        (GT1151.process_coordinate_reading_triggered st infoByte fwBuf coordBuf).1.y.getD 0 0 =
          GT1151.add_lo_hi_bytes (coordBuf.getD 3 0) (coordBuf.getD 4 0) 8 ∧
        (GT1151.process_coordinate_reading_triggered st infoByte fwBuf coordBuf).1.touch_detected
          = true := by
      intro st fwBuf
      simp only [GT1151.process_coordinate_reading_triggered, if_neg hrdy,
        if_pos hn, GT1151.read_coordinates]
      refine ⟨?_, ?_, trivial⟩
      all_goals
        rw [List.getD_eq_getElem?_getD, List.getElem?_map,
          List.getElem?_range (by norm_num : (0 : ℕ) < 10)]
        simp [if_pos hn]
    obtain ⟨hx1, hy1, ht1⟩ := key st1 fwBuf1
    obtain ⟨hx2, hy2, _⟩ := key st2 fwBuf2
    exact ⟨by rw [hx1, hy1, hx2, hy2], ht1⟩

/-- Witness for C2 at concrete inputs: a loop started at snapshot `(0, 0)`
observing `[(0, 0), (16, 32)]` returns `(16, 32) ≠ (0, 0)`, the duplicate
observation collapses, and two triggered reads of the Scenario C payload
(`infoByte = 0x81`: ready bit set, one touch point) from different states
publish the same pair and set the event. -/
theorem input_dedup_law_witness :
    ((16, 32) : Nat × Nat) ≠ (0, 0) ∧
    GT1151.input_wait_loop (0, 0) [(0, 0), (16, 32)] =
      GT1151.input_wait_loop (0, 0) [(16, 32)] ∧
    ((GT1151.process_coordinate_reading_triggered GT1151.initState 0x81 []
        (scenarioCBuf 0x81)).1.x.getD 0 0,
     (GT1151.process_coordinate_reading_triggered GT1151.initState 0x81 []
        (scenarioCBuf 0x81)).1.y.getD 0 0) =
    ((GT1151.process_coordinate_reading_triggered
        { GT1151.initState with started := true } 0x81 [0x01]
        (scenarioCBuf 0x81)).1.x.getD 0 0,
     (GT1151.process_coordinate_reading_triggered
        { GT1151.initState with started := true } 0x81 [0x01]
        (scenarioCBuf 0x81)).1.y.getD 0 0) ∧
    (GT1151.process_coordinate_reading_triggered GT1151.initState 0x81 []
        (scenarioCBuf 0x81)).1.touch_detected = true :=
  ⟨input_dedup_law.1 (0, 0) [(0, 0), (16, 32)] (16, 32) (by decide),
   input_dedup_law.2.1 (0, 0) [(16, 32)],
   (input_dedup_law.2.2 GT1151.initState
      { GT1151.initState with started := true } 0x81 [] [0x01]
      (scenarioCBuf 0x81) (by decide) (by decide)).1,
   (input_dedup_law.2.2 GT1151.initState
      { GT1151.initState with started := true } 0x81 [] [0x01]
      (scenarioCBuf 0x81) (by decide) (by decide)).2⟩

/-- A started, not stopped driver whose controller is in sleep mode. -/
def sleepSt : GtState :=
  { GT1151.initState with started := true, mode := some GtMode.sleepMode }

/-- A started, not stopped driver in normal mode. -/
def normalSt : GtState :=
  { GT1151.initState with started := true, mode := some GtMode.normal }

/-- C3 counterexample: calling `input()` with the controller in sleep mode
does not fail — it returns without error and the controller mode has been
silently switched to normal. -/
theorem input_sleep_autoswitch_cex :
    ∃ st' r, GT1151.input sleepSt [] = .ok (st', r) ∧
      st'.mode = some GtMode.normal ∧ sleepSt.mode = some GtMode.sleepMode :=
  ⟨_, _, rfl, rfl, rfl⟩

/-- C3 as amended: for every started, not stopped state whose mode is not
normal (in particular sleep), `input()` raises no exception at all; instead
it silently auto-switches the controller into normal mode (via
`_enter_normal_mode`) before waiting. -/
theorem input_nonnormal_autoswitch :
    ∀ st obs, st.started = true → st.stopped = false →
      st.mode ≠ some GtMode.normal →
      ∃ r, GT1151.input st obs =
        .ok ((GT1151.enter_normal_mode st).1, r) ∧
        (GT1151.enter_normal_mode st).1.mode = some GtMode.normal := by
  intro st obs hstart hstop hmode
  have h : GT1151.input st obs = .ok ((GT1151.enter_normal_mode st).1,
      GT1151.input_wait_loop ((GT1151.enter_normal_mode st).1.x.getD 0 0,
        (GT1151.enter_normal_mode st).1.y.getD 0 0) obs) := by
    simp [GT1151.input, hstart, hstop, if_neg hmode]
  exact ⟨_, h, rfl⟩

/-- Witness for the amended C3 at the concrete sleeping state. -/
theorem input_nonnormal_autoswitch_witness :
    sleepSt.started = true ∧ sleepSt.stopped = false ∧
    sleepSt.mode ≠ some GtMode.normal ∧
    ∃ r, GT1151.input sleepSt [] =
      .ok ((GT1151.enter_normal_mode sleepSt).1, r) ∧
      (GT1151.enter_normal_mode sleepSt).1.mode = some GtMode.normal :=
  ⟨rfl, rfl, by decide,
   input_nonnormal_autoswitch sleepSt [] rfl rfl (by decide)⟩

/-- C7 (divergence witness): `input()` has no timeout parameter and waits on
`_touch_detected.wait()` with no timeout: from normal mode, however many
wake-ups occur whose published coordinates still equal the snapshot, the
call neither returns nor raises — there is no expiry outcome at all. -/
theorem input_wait_has_no_timeout :
    ∀ n, GT1151.input normalSt (List.replicate n (0, 0)) =
      .ok (normalSt, none) ∧
    GT1151.input_wait_loop (0, 0) (List.replicate n (0, 0)) = none := by
  intro n
  have hloop : GT1151.input_wait_loop (0, 0) (List.replicate n (0, 0)) = none := by
    induction n with
    | zero => rfl
    | succ k ih =>
      rw [List.replicate_succ, GT1151.input_wait_loop, if_pos rfl]
      exact ih
  constructor
  · have hin : GT1151.input normalSt (List.replicate n (0, 0)) =
        .ok (normalSt, GT1151.input_wait_loop (0, 0) (List.replicate n (0, 0))) := rfl
    rw [hin, hloop]
  · exact hloop
